import Mathlib

/-!
Shallow embedding of the user-schema validation layer
(`app/schemas/user_schemas.py`, pydantic v2 models `UserBase`, `UserCreate`,
`UserUpdate`, `UserResponse`, `LoginRequest`, `UserListResponse`).

Raw request payloads are modelled as association lists from field names to
raw JSON-ish values (absent key, explicit null, or string).  Each pydantic
field check is translated to a function returning `Except Violation α`;
model construction collects the violations of all fields in declaration
order, as pydantic does, and succeeds exactly when no field check fails.
Python character classes (`str.isupper`, `str.isdigit`, ...) are modelled on
their ASCII fragment, which covers all inputs considered here.
-/

/-- A raw value of a submitted field: explicit `null` or a string. -/
inductive RawVal where
  | vnone : RawVal
  | vstr : String → RawVal
deriving DecidableEq, Repr

/-- Python truthiness of a raw value: `None` and `""` are falsy,
every other string is truthy. -/
def RawVal.truthy : RawVal → Bool
  | .vnone => false
  | .vstr s => s != ""

/-- A submitted payload: an association list from field names to raw values
(a Python `dict`; keys are unique). -/
abbrev RawMap := List (String × RawVal)

/-- Dictionary lookup: `none` when the key is absent. -/
def findVal : RawMap → String → Option RawVal
  | [], _ => none
  | (k, v) :: rest, key => if k = key then some v else findVal rest key

/-- One validation error, tagged with the offending field name,
as in a pydantic `ValidationError` entry. -/
structure Violation where
  fieldName : String
  msg : String
deriving DecidableEq, Repr

/-- The singleton or empty error list contributed by one field check. -/
def errsOf {α : Type} : Except Violation α → List Violation
  | .ok _ => []
  | .error v => [v]

/-- The validated value of one field check, with a default for the error
case (the default is never used on the success path). -/
def okD {α : Type} (r : Except Violation α) (d : α) : α :=
  match r with
  | .ok a => a
  | .error _ => d

/-- Model of the external `EmailStr` syntactic check (the `email-validator`
library used by pydantic, not part of this repository): exactly one `@`
separating a non-empty local part from a non-empty domain that contains a
dot, and no spaces.  Faithful on every concrete email considered here. -/
def isValidEmail (s : String) : Bool :=
  (s.data.filter (fun c => c = '@')).length = 1 &&
  (s.data.takeWhile (fun c => c ≠ '@')).length ≥ 1 &&
  ((s.data.dropWhile (fun c => c ≠ '@')).drop 1).length ≥ 1 &&
  ((s.data.dropWhile (fun c => c ≠ '@')).drop 1).contains '.' &&
  !(s.data.contains ' ')

/- ## `urllib.parse.urlparse`: scheme / netloc extraction -/

/-- The characters CPython allows after the first letter of a URL scheme. -/
def schemeChar (c : Char) : Bool :=
  c.isAlphanum || c = '+' || c = '-' || c = '.'

/-- Split a character list at its first `':'`, into the parts before and
after it; `none` when there is no colon. -/
def splitOnColon : List Char → Option (List Char × List Char)
  | [] => none
  | c :: cs =>
    if c = ':' then some ([], cs)
    else
      match splitOnColon cs with
      | some (pre, post) => some (c :: pre, post)
      | none => none

/-- The components of a parsed URL this layer inspects. -/
structure ParsedUrl where
  scheme : String
  netloc : String
deriving DecidableEq, Repr

/-- Model of `urllib.parse.urlparse` restricted to the two components the
code reads.  As in CPython: the scheme is the lower-cased prefix before the
first `':'` provided it is non-empty, starts with an ASCII letter and uses
only scheme characters (otherwise the scheme is empty and the whole input
is kept); the netloc is present only when the remainder starts with `//`,
and extends to the next `/`, `?` or `#`. -/
def urlparse (url : String) : ParsedUrl :=
  let cs := url.data
  let rest :=
    match splitOnColon cs with
    | some (pre, post) =>
      if pre ≠ [] ∧ (pre.headD ' ').isAlpha ∧ pre.all schemeChar then
        (pre.map Char.toLower, post)
      else ([], cs)
    | none => ([], cs)
  let netloc :=
    match rest.2 with
    | '/' :: '/' :: r => r.takeWhile (fun c => c ≠ '/' ∧ c ≠ '?' ∧ c ≠ '#')
    | _ => []
  ⟨⟨rest.1⟩, ⟨netloc⟩⟩

/-- The error message raised by `validate_url`. -/
def urlMsg : String := "Invalid URL: must use http or https and include a valid domain"

/-- `validate_url` from `app/schemas/user_schemas.py`: `None` passes
through; otherwise the parsed scheme must be `http` or `https` and the
parsed netloc non-empty. -/
def validate_url : Option String → Except String (Option String)
  | none => .ok none
  | some url =>
    let parsed := urlparse url
    if ¬ (parsed.scheme = "http" ∨ parsed.scheme = "https") ∨ parsed.netloc = "" then
      .error urlMsg
    else .ok (some url)

/- ## Nickname rule: `min_length=3`, regex `^[\w-]+$` -/

/-- Model of the regex word class `\w` (Python/Rust regex, Unicode-aware)
for code points up to U+02FF: ASCII alphanumerics and underscore, plus the
Latin-1 and Latin-Extended letters (U+00AA, U+00B5, U+00BA, and
U+00C0–U+02FF except the signs `×` U+00D7 and `÷` U+00F7).  Faithful on
every character appearing in this development. -/
def isWordChar (c : Char) : Bool :=
  c.isAlphanum || c = '_' ||
  c.toNat = 0xAA || c.toNat = 0xB5 || c.toNat = 0xBA ||
  (0xC0 ≤ c.toNat && c.toNat ≤ 0x2FF && c.toNat ≠ 0xD7 && c.toNat ≠ 0xF7)

/-- The anchored pattern `^[\w-]+$`: one or more word characters or `-`. -/
def matchesNicknamePattern (s : String) : Bool :=
  s.data ≠ [] && s.data.all (fun c => isWordChar c || c = '-')

def nickMinMsg : String := "String should have at least 3 characters"
def nickPatMsg : String := "String should match pattern"

/-- The `nickname` field check: optional; a present string must have
length ≥ 3 and match `^[\w-]+$` (constraints checked in that order). -/
def checkNickname (r : Option RawVal) : Except Violation (Option String) :=
  match r with
  | none => .ok none
  | some .vnone => .ok none
  | some (.vstr s) =>
    if s.length < 3 then .error ⟨"nickname", nickMinMsg⟩
    else if ¬ matchesNicknamePattern s then .error ⟨"nickname", nickPatMsg⟩
    else .ok (some s)

/- ## Password complexity (`UserCreate.password_complexity`) -/

def lenMsg : String := "Password must be at least 8 characters long."
def upperMsg : String := "Password must contain at least one uppercase letter."
def lowerMsg : String := "Password must contain at least one lowercase letter."
def digitMsg : String := "Password must contain at least one digit."
def specialMsg : String := "Password must contain at least one special character."

/-- The fixed special-character set of `password_complexity`. -/
def special_characters : String := "!@#$%^&*()_+-=[]\x7b\x7d|;:'\",.<>?/~`"

/-- `UserCreate.password_complexity`, translated check for check: each
predicate is tested in order over the password's characters and the first
failure raises. -/
def password_complexity (password : String) : Except String String :=
  if password.length < 8 then .error lenMsg
  else if ! password.data.any Char.isUpper then .error upperMsg
  else if ! password.data.any Char.isLower then .error lowerMsg
  else if ! password.data.any Char.isDigit then .error digitMsg
  else if ! password.data.any (fun c => special_characters.data.contains c) then
    .error specialMsg
  else .ok password

/-- Modelled from the spec: the report that "lists every unmet predicate"
of the password-complexity policy, in rule order (length, uppercase,
lowercase, digit, special).  Used to compare the code's actual report
against the specified one. -/
def spec_unmet_conditions (p : String) : List String :=
  (if p.length < 8 then [lenMsg] else []) ++
  (if p.data.any Char.isUpper then [] else [upperMsg]) ++
  (if p.data.any Char.isLower then [] else [lowerMsg]) ++
  (if p.data.any Char.isDigit then [] else [digitMsg]) ++
  (if p.data.any (fun c => special_characters.data.contains c) then [] else [specialMsg])

/- ## Field checks shared by the record shapes -/

def emailInvalidMsg : String := "value is not a valid email address"
def requiredMsg : String := "Field required"
def strTypeMsg : String := "Input should be a valid string"

/-- A mandatory `EmailStr` field (`UserBase.email` / `UserCreate.email`). -/
def checkEmailRequired (r : Option RawVal) : Except Violation String :=
  match r with
  | none => .error ⟨"email", requiredMsg⟩
  | some .vnone => .error ⟨"email", emailInvalidMsg⟩
  | some (.vstr s) =>
    if isValidEmail s then .ok s else .error ⟨"email", emailInvalidMsg⟩

/-- An `Optional[EmailStr]` field (`UserUpdate.email`). -/
def checkEmailOptional (r : Option RawVal) : Except Violation (Option String) :=
  match r with
  | none => .ok none
  | some .vnone => .ok none
  | some (.vstr s) =>
    if isValidEmail s then .ok (some s) else .error ⟨"email", emailInvalidMsg⟩

/-- An unconstrained `Optional[str]` field (`first_name`, `last_name`, `bio`). -/
def checkOptionalStr (r : Option RawVal) : Except Violation (Option String) :=
  match r with
  | none => .ok none
  | some .vnone => .ok none
  | some (.vstr s) => .ok (some s)

/-- One of the three profile-link fields: the shared `validate_url`
validator (registered with `pre=True` for all three), with the error
tagged by the field's own name. -/
def checkUrlField (fld : String) (r : Option RawVal) : Except Violation (Option String) :=
  match r with
  | none => .ok none
  | some .vnone =>
    match validate_url none with
    | .ok u => .ok u
    | .error m => .error ⟨fld, m⟩
  | some (.vstr s) =>
    match validate_url (some s) with
    | .ok u => .ok u
    | .error m => .error ⟨fld, m⟩

/-- A mandatory plain `str` field (`password`, `LoginRequest` fields). -/
def checkRequiredStr (fld : String) (r : Option RawVal) : Except Violation String :=
  match r with
  | none => .error ⟨fld, requiredMsg⟩
  | some .vnone => .error ⟨fld, strTypeMsg⟩
  | some (.vstr s) => .ok s

/-- `UserCreate.password`: a mandatory string run through
`password_complexity`. -/
def checkPassword (r : Option RawVal) : Except Violation String :=
  match r with
  | none => .error ⟨"password", requiredMsg⟩
  | some .vnone => .error ⟨"password", strTypeMsg⟩
  | some (.vstr s) =>
    match password_complexity s with
    | .ok p => .ok p
    | .error m => .error ⟨"password", m⟩

/- ## The record shapes -/

/-- `UserRole`: closed enumeration. -/
inductive UserRole where
  | ANONYMOUS | AUTHENTICATED | MANAGER | ADMIN
deriving DecidableEq, Repr

/-- The validated `UserCreate` value (base fields plus `password`;
note: no `id`, no `role`). -/
structure UserCreate where
  email : String
  nickname : Option String
  first_name : Option String
  last_name : Option String
  bio : Option String
  profile_picture_url : Option String
  linkedin_profile_url : Option String
  github_profile_url : Option String
  password : String
deriving DecidableEq, Repr

/-- The validated `UserUpdate` value (every base field optional;
note: no `id`, no `role`, no `password`). -/
structure UserUpdate where
  email : Option String
  nickname : Option String
  first_name : Option String
  last_name : Option String
  bio : Option String
  profile_picture_url : Option String
  linkedin_profile_url : Option String
  github_profile_url : Option String
deriving DecidableEq, Repr

/-- The validated `LoginRequest` value: two plain strings. -/
structure LoginRequest where
  email : String
  password : String
deriving DecidableEq, Repr

/-- The output shape `UserResponse` (carries `id` and `role`). -/
structure UserResponse where
  email : String
  nickname : Option String
  first_name : Option String
  last_name : Option String
  bio : Option String
  profile_picture_url : Option String
  linkedin_profile_url : Option String
  github_profile_url : Option String
  id : String
  role : UserRole
  is_professional : Option Bool
deriving DecidableEq, Repr

/-- The paginated listing shape `UserListResponse`: its declaration carries
no validator and no numeric constraint beyond the `int` type. -/
structure UserListResponse where
  items : List UserResponse
  total : Int
  page : Int
  size : Int
deriving DecidableEq, Repr

/- ## Model construction (the composite validators) -/

/-- The input field names `UserCreate` reads, in declaration order. -/
def createKeys : List String :=
  ["email", "nickname", "first_name", "last_name", "bio",
   "profile_picture_url", "linkedin_profile_url", "github_profile_url", "password"]

/-- The input field names `UserUpdate` reads for its per-field checks. -/
def updateKeys : List String :=
  ["email", "nickname", "first_name", "last_name", "bio",
   "profile_picture_url", "linkedin_profile_url", "github_profile_url"]

/-- All violations of a `UserCreate` construction, in field declaration
order (pydantic collects every failing field; it does not stop at the
first one). -/
def create_errors (m : RawMap) : List Violation :=
  errsOf (checkEmailRequired (findVal m "email")) ++
  errsOf (checkNickname (findVal m "nickname")) ++
  errsOf (checkOptionalStr (findVal m "first_name")) ++
  errsOf (checkOptionalStr (findVal m "last_name")) ++
  errsOf (checkOptionalStr (findVal m "bio")) ++
  errsOf (checkUrlField "profile_picture_url" (findVal m "profile_picture_url")) ++
  errsOf (checkUrlField "linkedin_profile_url" (findVal m "linkedin_profile_url")) ++
  errsOf (checkUrlField "github_profile_url" (findVal m "github_profile_url")) ++
  errsOf (checkPassword (findVal m "password"))

/-- The `UserCreate` value assembled from the per-field results (the
defaults are unreachable when `create_errors m = []`). -/
def create_value (m : RawMap) : UserCreate :=
  ⟨okD (checkEmailRequired (findVal m "email")) "",
   okD (checkNickname (findVal m "nickname")) none,
   okD (checkOptionalStr (findVal m "first_name")) none,
   okD (checkOptionalStr (findVal m "last_name")) none,
   okD (checkOptionalStr (findVal m "bio")) none,
   okD (checkUrlField "profile_picture_url" (findVal m "profile_picture_url")) none,
   okD (checkUrlField "linkedin_profile_url" (findVal m "linkedin_profile_url")) none,
   okD (checkUrlField "github_profile_url" (findVal m "github_profile_url")) none,
   okD (checkPassword (findVal m "password")) ""⟩

/-- Constructing a `UserCreate` from a raw payload: succeeds iff no field
check fails, otherwise reports every field violation together. -/
def validate_creation (m : RawMap) : Except (List Violation) UserCreate :=
  match create_errors m with
  | [] => .ok (create_value m)
  | errs => .error errs

/-- The error raised by `UserUpdate.check_at_least_one_value`
(a `root_validator(pre=True)`, so it is tagged with the model root,
not a field). -/
def rootErr : Violation := ⟨"__root__", "At least one field must be provided for update"⟩

/-- `UserUpdate.check_at_least_one_value`: the raw payload must contain at
least one truthy value (`if not any(values.values()): raise`). -/
def check_at_least_one_value (m : RawMap) : Except Violation RawMap :=
  if m.any (fun kv => kv.2.truthy) then .ok m else .error rootErr

/-- All per-field violations of a `UserUpdate` construction, in field
declaration order. -/
def update_errors (m : RawMap) : List Violation :=
  errsOf (checkEmailOptional (findVal m "email")) ++
  errsOf (checkNickname (findVal m "nickname")) ++
  errsOf (checkOptionalStr (findVal m "first_name")) ++
  errsOf (checkOptionalStr (findVal m "last_name")) ++
  errsOf (checkOptionalStr (findVal m "bio")) ++
  errsOf (checkUrlField "profile_picture_url" (findVal m "profile_picture_url")) ++
  errsOf (checkUrlField "linkedin_profile_url" (findVal m "linkedin_profile_url")) ++
  errsOf (checkUrlField "github_profile_url" (findVal m "github_profile_url"))

/-- The `UserUpdate` value assembled from the per-field results. -/
def update_value (m : RawMap) : UserUpdate :=
  ⟨okD (checkEmailOptional (findVal m "email")) none,
   okD (checkNickname (findVal m "nickname")) none,
   okD (checkOptionalStr (findVal m "first_name")) none,
   okD (checkOptionalStr (findVal m "last_name")) none,
   okD (checkOptionalStr (findVal m "bio")) none,
   okD (checkUrlField "profile_picture_url" (findVal m "profile_picture_url")) none,
   okD (checkUrlField "linkedin_profile_url" (findVal m "linkedin_profile_url")) none,
   okD (checkUrlField "github_profile_url" (findVal m "github_profile_url")) none⟩

/-- Constructing a `UserUpdate`: the pre root validator
`check_at_least_one_value` runs first on the raw payload (a failure there
aborts construction before any field check, as pydantic does for a raising
`mode="before"` root validator); then the per-field checks run and every
violation is collected. -/
def validate_update (m : RawMap) : Except (List Violation) UserUpdate :=
  match check_at_least_one_value m with
  | .error v => .error [v]
  | .ok m' =>
    match update_errors m' with
    | [] => .ok (update_value m')
    | errs => .error errs

/-- Constructing a `LoginRequest`: two mandatory plain strings, with no
email-syntax and no password-complexity validation. -/
def validate_login (m : RawMap) : Except (List Violation) LoginRequest :=
  match checkRequiredStr "email" (findVal m "email"),
        checkRequiredStr "password" (findVal m "password") with
  | .ok e, .ok p => .ok ⟨e, p⟩
  | r1, r2 => .error (errsOf r1 ++ errsOf r2)

/-- Constructing a `UserListResponse` from well-typed components: the class
declares no validator and no cross-field constraint, so construction
always succeeds. -/
def validate_user_list (items : List UserResponse) (total page size : Int) :
    Except (List Violation) UserListResponse :=
  .ok ⟨items, total, page, size⟩

/- ## Helper lemmas -/

lemma mem_errsOf {α : Type} (r : Except Violation α) (v : Violation) :
    v ∈ errsOf r ↔ r = .error v := by
  cases r <;> simp [errsOf, eq_comm]

lemma checkOptionalStr_ne_error (r : Option RawVal) (v : Violation) :
    checkOptionalStr r ≠ .error v := by
  rcases r with _ | (_ | s) <;> simp [checkOptionalStr]

lemma checkEmailOptional_err (r : Option RawVal) (v : Violation)
    (h : checkEmailOptional r = .error v) : v = ⟨"email", emailInvalidMsg⟩ := by
  rcases r with _ | rv
  · simp [checkEmailOptional] at h
  · rcases rv with _ | s
    · simp [checkEmailOptional] at h
    · by_cases hc : isValidEmail s
      · simp [checkEmailOptional, hc] at h
      · simp [checkEmailOptional, hc] at h
        exact h.symm

lemma checkNickname_err (r : Option RawVal) (v : Violation)
    (h : checkNickname r = .error v) :
    v = ⟨"nickname", nickMinMsg⟩ ∨ v = ⟨"nickname", nickPatMsg⟩ := by
  rcases r with _ | rv
  · simp [checkNickname] at h
  · rcases rv with _ | s
    · simp [checkNickname] at h
    · rw [checkNickname] at h
      split_ifs at h with h1 h2 <;> simp at h
      · exact Or.inl h.symm
      · exact Or.inr h.symm

lemma checkUrlField_err (fld : String) (r : Option RawVal) (v : Violation)
    (h : checkUrlField fld r = .error v) : v = ⟨fld, urlMsg⟩ := by
  rcases r with _ | rv
  · simp [checkUrlField] at h
  · rcases rv with _ | s
    · simp [checkUrlField, validate_url] at h
    · rcases hu : validate_url (some s) with msg | u
      case ok => simp [checkUrlField, hu] at h
      case error =>
        have hm : msg = urlMsg := by
          rw [validate_url] at hu
          split_ifs at hu
          simp at hu
          exact hu.symm
        simp only [checkUrlField, hu, hm] at h
        exact (Except.error.inj h).symm

/-- The only violations a `UserUpdate` per-field pass can produce. -/
def updatePool : List Violation :=
  [⟨"email", emailInvalidMsg⟩, ⟨"nickname", nickMinMsg⟩, ⟨"nickname", nickPatMsg⟩,
   ⟨"profile_picture_url", urlMsg⟩, ⟨"linkedin_profile_url", urlMsg⟩,
   ⟨"github_profile_url", urlMsg⟩]

lemma update_errors_subset (m : RawMap) (v : Violation)
    (hv : v ∈ update_errors m) : v ∈ updatePool := by
  simp only [update_errors, List.mem_append, mem_errsOf] at hv
  rcases hv with ((((((h | h) | h) | h) | h) | h) | h) | h
  · have := checkEmailOptional_err _ _ h; simp [updatePool, this]
  · rcases checkNickname_err _ _ h with h' | h' <;> simp [updatePool, h']
  · exact absurd h (checkOptionalStr_ne_error _ _)
  · exact absurd h (checkOptionalStr_ne_error _ _)
  · exact absurd h (checkOptionalStr_ne_error _ _)
  · have := checkUrlField_err _ _ _ h; simp [updatePool, this]
  · have := checkUrlField_err _ _ _ h; simp [updatePool, this]
  · have := checkUrlField_err _ _ _ h; simp [updatePool, this]

lemma validate_update_falsy (m : RawMap)
    (h : m.any (fun kv => kv.2.truthy) = false) :
    validate_update m = .error [rootErr] := by
  simp [validate_update, check_at_least_one_value, h]

lemma validate_update_truthy (m : RawMap)
    (h : m.any (fun kv => kv.2.truthy) = true) :
    validate_update m =
      (match update_errors m with
       | [] => .ok (update_value m)
       | errs => .error errs) := by
  simp [validate_update, check_at_least_one_value, h]

lemma validate_update_err_mem (m : RawMap) (errs : List Violation) (v : Violation)
    (hA : m.any (fun kv => kv.2.truthy) = true)
    (h : validate_update m = .error errs) (hv : v ∈ errs) : v ∈ updatePool := by
  rw [validate_update_truthy m hA] at h
  cases hu : update_errors m with
  | nil => rw [hu] at h; exact absurd h (by simp)
  | cons e rest =>
    rw [hu] at h
    simp at h
    apply update_errors_subset m
    rw [hu, h]
    exact hv

lemma validate_creation_err (m : RawMap) (h : create_errors m ≠ []) :
    validate_creation m = .error (create_errors m) := by
  unfold validate_creation
  cases hc : create_errors m with
  | nil => exact absurd hc h
  | cons e rest => simp

lemma validate_update_ok (m : RawMap) (v : UserUpdate)
    (h : validate_update m = .ok v) : v = update_value m := by
  by_cases hA : m.any (fun kv => kv.2.truthy) = true
  · rw [validate_update_truthy m hA] at h
    cases hu : update_errors m with
    | nil => rw [hu] at h; simpa [eq_comm] using h
    | cons e rest => rw [hu] at h; simp at h
  · rw [validate_update_falsy m (by simpa using hA)] at h
    simp at h

/- ## Claim C1 -/

/-- C1 counterexample: on creation input with password `"short"`, the
length, uppercase, digit and special predicates are all unmet, yet the
construction reports only the length violation; the digit condition is
unmet but absent from the report, so the check does short-circuit. -/
theorem c1_counterexample :
    validate_creation
        [("email", RawVal.vstr "john.doe@example.com"), ("password", RawVal.vstr "short")] =
      .error [⟨"password", lenMsg⟩] ∧
    digitMsg ∈ spec_unmet_conditions "short" ∧
    (⟨"password", digitMsg⟩ : Violation) ∉ [(⟨"password", lenMsg⟩ : Violation)] :=
  ⟨rfl, by decide, by decide⟩

/-- C1 (amended): `password_complexity` fails iff some complexity predicate
is unmet, but it short-circuits: the reported violation is only the FIRST
unmet predicate in the order length, uppercase, lowercase, digit,
special — not the list of all unmet predicates. -/
theorem c1_password_reports_first_unmet (p : String) :
    password_complexity p =
      (match spec_unmet_conditions p with
       | [] => Except.ok p
       | m :: _ => Except.error m) := by
  by_cases h1 : p.length < 8 <;>
    cases h2 : p.data.any Char.isUpper <;>
      cases h3 : p.data.any Char.isLower <;>
        cases h4 : p.data.any Char.isDigit <;>
          cases h5 : p.data.any (fun c => special_characters.data.contains c) <;>
            (unfold password_complexity spec_unmet_conditions;
             rw [h2, h3, h4, h5];
             simp [h1])

/- ## Claim C3 -/

/-- Modelled from the spec: nickname validity as the claim states it —
length at least 3 and every character an ASCII alphanumeric, `_` or `-`. -/
def spec_nickname_ok (s : String) : Bool :=
  decide (3 ≤ s.length) && s.data.all (fun c => c.isAlphanum || c = '_' || c = '-')

/-- C3 counterexample: the code accepts the nickname `"ééé"` (three
non-ASCII letters, matched by the Unicode-aware `\w` of the pattern
`^[\w-]+$`), while the claim's ASCII-alphanumeric charset rejects it. -/
theorem c3_counterexample :
    checkNickname (some (RawVal.vstr "ééé")) = .ok (some "ééé") ∧
    spec_nickname_ok "ééé" = false :=
  ⟨rfl, rfl⟩

/-- C3 (amended): an absent or null nickname is valid; a present string
validates iff it has length ≥ 3 and every character is a regex word
character (Unicode letters and digits included, not only ASCII) or `-`;
the empty string is invalid. -/
theorem c3_nickname_rule :
    checkNickname none = .ok none ∧
    checkNickname (some RawVal.vnone) = .ok none ∧
    (∀ s : String,
      checkNickname (some (RawVal.vstr s)) = .ok (some s) ↔
        (3 ≤ s.length ∧ s.data.all (fun c => isWordChar c || c = '-') = true)) ∧
    checkNickname (some (RawVal.vstr "")) = .error ⟨"nickname", nickMinMsg⟩ := by
  refine ⟨rfl, rfl, ?_, rfl⟩
  intro s
  constructor
  · intro h
    rw [checkNickname] at h
    split_ifs at h with h1 h2
    simp at h
    have hp := h2
    rw [matchesNicknamePattern] at hp
    simp only [Bool.and_eq_true, decide_eq_true_eq] at hp
    exact ⟨by omega, hp.2⟩
  · rintro ⟨hl, ha⟩
    have hne : s.data ≠ [] := by
      intro he
      rw [String.length, he] at hl
      simp at hl
    simp [checkNickname, matchesNicknamePattern, hne, ha, show ¬ s.length < 3 by omega]

/-- C3 witness: a concrete instantiation of the amended rule. -/
theorem c3_witness :
    checkNickname (some (RawVal.vstr "john_doe")) = .ok (some "john_doe") :=
  (c3_nickname_rule.2.2.1 "john_doe").mpr ⟨by decide, by decide⟩

/- ## Claim C4 -/

/-- The optional-string content of a raw value, as the `pre=True` URL
validator receives it (absent and null both reach `validate_url` as
`None`). -/
def rawToOpt : Option RawVal → Option String
  | none => none
  | some .vnone => none
  | some (.vstr s) => some s

/-- C4: `None` always validates; a string validates iff `urlparse` yields
scheme exactly `http` or `https` and a non-empty netloc; every other value
is rejected (with the single URL error); and the same `validate_url` rule
is applied identically and independently to each profile-link field,
whatever its name.  The spec's examples `ftp://x.com`, 
`https://example.com/a.png` and `http//bad` behave as stated. -/
theorem c4_url_rule :
    validate_url none = .ok none ∧
    (∀ s, validate_url (some s) = .ok (some s) ∨ validate_url (some s) = .error urlMsg) ∧
    (∀ s, validate_url (some s) = .ok (some s) ↔
      (((urlparse s).scheme = "http" ∨ (urlparse s).scheme = "https") ∧
        (urlparse s).netloc ≠ "")) ∧
    (∀ fld r, checkUrlField fld r =
      (match validate_url (rawToOpt r) with
       | .ok u => .ok u
       | .error m => .error ⟨fld, m⟩)) ∧
    validate_url (some "ftp://x.com") = .error urlMsg ∧
    validate_url (some "https://example.com/a.png") = .ok (some "https://example.com/a.png") ∧
    validate_url (some "http//bad") = .error urlMsg := by
  refine ⟨rfl, ?_, ?_, ?_, rfl, rfl, rfl⟩
  · intro s
    simp only [validate_url]
    split_ifs with h
    · exact Or.inr rfl
    · exact Or.inl rfl
  · intro s
    simp only [validate_url]
    split_ifs with h
    · constructor
      · intro hh; exact absurd hh (by simp)
      · intro hc
        rcases h with hA | hB
        · exact absurd hc.1 hA
        · exact absurd hB hc.2
    · constructor
      · intro _
        push_neg at h
        exact ⟨h.1, h.2⟩
      · intro _; rfl
  · intro fld r
    rcases r with _ | rv
    · rfl
    · rcases rv with _ | s <;> rfl

/-- C4 witness: a concrete instantiation of the iff characterization. -/
theorem c4_witness :
    validate_url (some "https://linkedin.com/in/johndoe") =
      .ok (some "https://linkedin.com/in/johndoe") :=
  (c4_url_rule.2.2.1 "https://linkedin.com/in/johndoe").mpr (by decide)

/- ## Claim C6 -/

/-- A well-formed `UserResponse` used to populate listing pages. -/
def sampleUser : UserResponse :=
  ⟨"john.doe@example.com", some "john_doe_123", some "John", some "Doe", none,
   none, none, none, "11111111-2222-3333-4444-555555555555",
   UserRole.AUTHENTICATED, some false⟩

/-- A listing page with more items than `size` and a negative `total`. -/
def listingCex : UserListResponse := ⟨[sampleUser, sampleUser], -5, 1, 1⟩

/-- C6 counterexample: a `UserListResponse` with two items, `size = 1` and
`total = -5` is constructed successfully, so neither `len(items) <= size`
nor `total >= 0` is an invariant of successfully constructed values. -/
theorem c6_counterexample :
    validate_user_list [sampleUser, sampleUser] (-5) 1 1 = .ok listingCex ∧
    ¬ ((listingCex.items.length : Int) ≤ listingCex.size ∧ 0 ≤ listingCex.total) :=
  ⟨rfl, by decide⟩

/-- C6 (amended): `UserListResponse` construction checks only the field
types; it enforces no relation between `items`, `size` and `total`, so any
well-typed combination — including `len(items) > size` and negative
`total` — yields a successfully constructed value with exactly those
fields. -/
theorem c6_listing_unconstrained :
    ∀ (items : List UserResponse) (total page size : Int),
      validate_user_list items total page size = .ok ⟨items, total, page, size⟩ :=
  fun _ _ _ _ => rfl

/- ## Claim C2 -/

/-- C2: one creation-validation call collects the violations of all fields
with no early exit: for any syntactically invalid email together with any
password failing the complexity rule, the report contains exactly the email
violation followed by the password violation, in field declaration order;
and in general an email (resp. password) field violation always appears in
the final report, whatever the other fields contain. -/
theorem c2_collects_all_fields :
    (∀ em pw : String, isValidEmail em = false →
      ∀ msg, password_complexity pw = .error msg →
        validate_creation [("email", RawVal.vstr em), ("password", RawVal.vstr pw)] =
          .error [⟨"email", emailInvalidMsg⟩, ⟨"password", msg⟩]) ∧
    (∀ (m : RawMap) (v : Violation), checkEmailRequired (findVal m "email") = .error v →
      ∃ errs, validate_creation m = .error errs ∧ v ∈ errs) ∧
    (∀ (m : RawMap) (v : Violation), checkPassword (findVal m "password") = .error v →
      ∃ errs, validate_creation m = .error errs ∧ v ∈ errs) := by
  refine ⟨?_, ?_, ?_⟩
  · intro em pw hE msg hP
    simp [validate_creation, create_errors, findVal, errsOf, checkEmailRequired,
      checkNickname, checkOptionalStr, checkUrlField, checkPassword, validate_url, hE, hP]
  · intro m v h
    have hv : v ∈ create_errors m := by
      simp only [create_errors, List.mem_append, mem_errsOf]
      tauto
    have hne : create_errors m ≠ [] := fun hc => by simp [hc] at hv
    exact ⟨create_errors m, validate_creation_err m hne, hv⟩
  · intro m v h
    have hv : v ∈ create_errors m := by
      simp only [create_errors, List.mem_append, mem_errsOf]
      tauto
    have hne : create_errors m ≠ [] := fun hc => by simp [hc] at hv
    exact ⟨create_errors m, validate_creation_err m hne, hv⟩

/-- C2 witness: the spec's concrete scenario — email `"bad-email"` and
password `"short"` give exactly the two violations, email first. -/
theorem c2_witness :
    validate_creation [("email", RawVal.vstr "bad-email"), ("password", RawVal.vstr "short")] =
      .error [⟨"email", emailInvalidMsg⟩, ⟨"password", lenMsg⟩] :=
  c2_collects_all_fields.1 "bad-email" "short" rfl lenMsg rfl

/- ## Claim C5 -/

/-- C5: `UserUpdate` construction passes the non-emptiness rule iff some
raw submitted value is truthy; the empty mapping and all-null mappings fail
with exactly the `EmptyUpdate` root error, and that check runs before any
per-field rule (an all-falsy payload reports only the root error even when
a field value would also fail its own rule, as with the empty-string
email). -/
theorem c5_update_nonempty_rule :
    (∀ m : RawMap,
      validate_update m = .error [rootErr] ↔ m.any (fun kv => kv.2.truthy) = false) ∧
    validate_update [] = .error [rootErr] ∧
    validate_update [("bio", RawVal.vstr "hi")] =
      .ok ⟨none, none, none, none, some "hi", none, none, none⟩ ∧
    validate_update [("bio", RawVal.vnone), ("first_name", RawVal.vnone)] =
      .error [rootErr] ∧
    validate_update [("email", RawVal.vstr "")] = .error [rootErr] := by
  refine ⟨?_, rfl, rfl, rfl, rfl⟩
  intro m
  constructor
  · intro h
    cases hB : m.any (fun kv => kv.2.truthy) with
    | false => rfl
    | true =>
      have hmem := validate_update_err_mem m [rootErr] rootErr hB h (by simp)
      exact absurd hmem (by decide)
  · intro h
    exact validate_update_falsy m h

/-- C5 witness: a payload whose single value is the falsy empty string
fails with the root error. -/
theorem c5_witness :
    validate_update [("first_name", RawVal.vstr "")] = .error [rootErr] :=
  (c5_update_nonempty_rule.1 [("first_name", RawVal.vstr "")]).mpr rfl

/- ## Claim C7 -/

/-- C7: `LoginRequest` construction accepts any pair of strings — no
email-syntax check and no password-complexity check run (in particular the
syntactically invalid email `"bad-email"` and the weak password `"x"` are
accepted as-is) — and `UserUpdate` construction never reports any
password-complexity violation. -/
theorem c7_login_skips_rules :
    (∀ e p : String,
      validate_login [("email", RawVal.vstr e), ("password", RawVal.vstr p)] = .ok ⟨e, p⟩) ∧
    validate_login [("email", RawVal.vstr "bad-email"), ("password", RawVal.vstr "x")] =
      .ok ⟨"bad-email", "x"⟩ ∧
    isValidEmail "bad-email" = false ∧
    password_complexity "x" = .error lenMsg ∧
    (∀ (m : RawMap) (errs : List Violation) (v : Violation),
      validate_update m = .error errs → v ∈ errs →
        v.msg ∉ [lenMsg, upperMsg, lowerMsg, digitMsg, specialMsg]) := by
  refine ⟨fun e p => rfl, rfl, rfl, rfl, ?_⟩
  intro m errs v h hv
  cases hA : m.any (fun kv => kv.2.truthy) with
  | true =>
    have hp := validate_update_err_mem m errs v hA h hv
    simp only [updatePool, List.mem_cons, List.not_mem_nil, or_false] at hp
    rcases hp with h' | h' | h' | h' | h' | h' <;> subst h' <;> decide
  | false =>
    rw [validate_update_falsy m hA] at h
    have he : errs = [rootErr] := by simpa [eq_comm] using h
    subst he
    simp only [List.mem_singleton] at hv
    subst hv
    decide

/-- C7 witness: an update failing only the email rule carries no
password-complexity message. -/
theorem c7_witness :
    (Violation.mk "email" emailInvalidMsg).msg ∉
      [lenMsg, upperMsg, lowerMsg, digitMsg, specialMsg] :=
  c7_login_skips_rules.2.2.2.2 [("email", RawVal.vstr "bad-email")]
    [⟨"email", emailInvalidMsg⟩] ⟨"email", emailInvalidMsg⟩ rfl (by simp)

/- ## Claim C8 -/

/-- C8: `id` and `role` are not among the field names creation/update
validation reads; creation construction is entirely determined by the
declared input fields (so `id`/`role` entries in the payload cannot reach
the value), and any successfully constructed update value is likewise
determined by the declared input fields alone. -/
theorem c8_server_fields_rejected :
    ("id" ∉ createKeys ∧ "role" ∉ createKeys ∧ "id" ∉ updateKeys ∧ "role" ∉ updateKeys) ∧
    (∀ m₁ m₂ : RawMap, (∀ k ∈ createKeys, findVal m₁ k = findVal m₂ k) →
      validate_creation m₁ = validate_creation m₂) ∧
    (∀ (m₁ m₂ : RawMap) (v₁ v₂ : UserUpdate),
      (∀ k ∈ updateKeys, findVal m₁ k = findVal m₂ k) →
      validate_update m₁ = .ok v₁ → validate_update m₂ = .ok v₂ → v₁ = v₂) := by
  refine ⟨by decide, ?_, ?_⟩
  · intro m₁ m₂ h
    have he := h "email" (by decide)
    have hn := h "nickname" (by decide)
    have hf := h "first_name" (by decide)
    have hl := h "last_name" (by decide)
    have hb := h "bio" (by decide)
    have hp1 := h "profile_picture_url" (by decide)
    have hp2 := h "linkedin_profile_url" (by decide)
    have hp3 := h "github_profile_url" (by decide)
    have hpw := h "password" (by decide)
    simp only [validate_creation, create_errors, create_value,
      he, hn, hf, hl, hb, hp1, hp2, hp3, hpw]
  · intro m₁ m₂ v₁ v₂ h h1 h2
    have e1 := validate_update_ok m₁ v₁ h1
    have e2 := validate_update_ok m₂ v₂ h2
    subst e1; subst e2
    have he := h "email" (by decide)
    have hn := h "nickname" (by decide)
    have hf := h "first_name" (by decide)
    have hl := h "last_name" (by decide)
    have hb := h "bio" (by decide)
    have hp1 := h "profile_picture_url" (by decide)
    have hp2 := h "linkedin_profile_url" (by decide)
    have hp3 := h "github_profile_url" (by decide)
    simp only [update_value, he, hn, hf, hl, hb, hp1, hp2, hp3]

/-- C8 witness: appending `id` and `role` entries to a creation payload
changes nothing about the constructed value. -/
theorem c8_witness :
    validate_creation [("email", RawVal.vstr "a@b.cd"), ("password", RawVal.vstr "Secure*1234")] =
      validate_creation [("email", RawVal.vstr "a@b.cd"), ("password", RawVal.vstr "Secure*1234"),
        ("id", RawVal.vstr "42"), ("role", RawVal.vstr "ADMIN")] :=
  c8_server_fields_rejected.2.1 _ _ (by decide)

/- ## Claim C9 -/

/-- C9: validation is a function of its input — two runs on the same raw
mapping agree exactly (same validated value, same violation list in the
same order) — and re-validating an already-validated value yields the
identical non-erroring result: a URL accepted by `validate_url` is
returned unchanged and re-accepted, and a password accepted by
`password_complexity` is returned unchanged and re-accepted. -/
theorem c9_validation_pure :
    (∀ (m : RawMap) (r₁ r₂ : Except (List Violation) UserCreate),
      validate_creation m = r₁ → validate_creation m = r₂ → r₁ = r₂) ∧
    (∀ (m : RawMap) (r₁ r₂ : Except (List Violation) UserUpdate),
      validate_update m = r₁ → validate_update m = r₂ → r₁ = r₂) ∧
    (∀ (s : String) (u : Option String), validate_url (some s) = .ok u →
      u = some s ∧ validate_url u = .ok u) ∧
    (∀ p q : String, password_complexity p = .ok q →
      q = p ∧ password_complexity q = .ok q) := by
  refine ⟨?_, ?_, ?_, ?_⟩
  · intro m r₁ r₂ h1 h2; rw [← h1, ← h2]
  · intro m r₁ r₂ h1 h2; rw [← h1, ← h2]
  · intro s u h
    simp only [validate_url] at h
    split_ifs at h with hc
    have hu := Except.ok.inj h
    subst hu
    refine ⟨rfl, ?_⟩
    simp only [validate_url]
    rw [if_neg hc]
  · intro p q h
    rw [password_complexity] at h
    split_ifs at h with h1 h2 h3 h4 h5
    simp at h
    have hq : q = p := h.symm
    subst hq
    rw [password_complexity, if_neg h1, if_neg h2, if_neg h3, if_neg h4, if_neg h5]
    exact ⟨rfl, rfl⟩

/-- C9 witness: re-validating a concrete accepted URL. -/
theorem c9_witness :
    (some "https://github.com/johndoe" : Option String) = some "https://github.com/johndoe" ∧
    validate_url (some "https://github.com/johndoe") = .ok (some "https://github.com/johndoe") :=
  c9_validation_pure.2.2.1 "https://github.com/johndoe" (some "https://github.com/johndoe") rfl

/- ## Claim C10 -/

/-- C10: the non-empty-update rule reads only raw truthiness, before any
per-field rule: whenever some submitted value is truthy — even one that
then fails its own field rule, like a nickname with a space or a
syntactically invalid email — the resulting failure (if any) consists of
per-field violations only, never the `EmptyUpdate` root error. -/
theorem c10_truthy_never_empty_update :
    (∀ m : RawMap, m.any (fun kv => kv.2.truthy) = true →
      ∀ errs, validate_update m = .error errs → rootErr ∉ errs) ∧
    validate_update [("nickname", RawVal.vstr "a b")] =
      .error [⟨"nickname", nickPatMsg⟩] ∧
    validate_update [("email", RawVal.vstr "bad-email")] =
      .error [⟨"email", emailInvalidMsg⟩] := by
  refine ⟨?_, rfl, rfl⟩
  intro m hA errs h hv
  have hp := validate_update_err_mem m errs rootErr hA h hv
  exact absurd hp (by decide)

/-- C10 witness: a truthy but rule-violating nickname payload fails with a
field violation and no `EmptyUpdate`. -/
theorem c10_witness :
    rootErr ∉ [(⟨"nickname", nickPatMsg⟩ : Violation)] :=
  c10_truthy_never_empty_update.1 [("nickname", RawVal.vstr "a b")] rfl
    [⟨"nickname", nickPatMsg⟩] rfl
